import Mathlib

/-!
Shallow embedding of `src/app.py` of the Ultimate Vocal Remover GUI shell:
the settings store (`QSettings`), the translation manager (`Translator`),
the two windows (`MainWindow`, `SettingsWindow`) and their event handlers,
together with theorems settling the specification claims.

Machine integers of the host (Qt's C++ `int` inside `QRect`/`QPoint`) are
modelled as `Int` with Qt's truncating (toward-zero) division written
explicitly as `Int.tdiv`; widths and heights are `Nat` (Qt rectangles in this
program always carry non-negative sizes).
-/

namespace UVR

/-- A rectangle in Qt's `QRect` representation: top-left corner `(x, y)`
and size `(w, h)`.  Qt stores the rectangle as the corner pair
`(x1, y1)-(x2, y2)` with `x2 = x1 + w - 1`. -/
structure Rect where
  x : Int
  y : Int
  w : Nat
  h : Nat
deriving Repr, DecidableEq

/-- Qt's `QRect::center()`: `((x1 + x2) / 2, (y1 + y2) / 2)` with C++ truncating
integer division, where `x2 = x1 + w - 1` and `y2 = y1 + h - 1`. -/
def Rect.center (r : Rect) : Int × Int :=
  ((r.x + (r.x + (r.w : Int) - 1)).tdiv 2, (r.y + (r.y + (r.h : Int) - 1)).tdiv 2)

/-- Qt's `QRect::moveCenter(p)`: translates the rectangle, keeping its size, so
that its centre becomes `p`; Qt computes the new corner as
`x1 := p.x - (x2 - x1) / 2` with C++ truncating division. -/
def Rect.moveCenter (r : Rect) (p : Int × Int) : Rect :=
  { r with
    x := p.1 - ((r.w : Int) - 1).tdiv 2,
    y := p.2 - ((r.h : Int) - 1).tdiv 2 }

/-- The language identifiers (`QtCore.QLocale.Language`) the UI works with:
the four languages wired to flag buttons in `SettingsWindow.setup_widgets`,
plus `other` covering any further `QLocale` language. -/
inductive Language where
  | english
  | german
  | japanese
  | filipino
  | other (name : String)
deriving Repr, DecidableEq

/-- Model of `QtCore.QLocale.languageToString`. -/
def languageToString : Language → String
  | .english => "English"
  | .german => "German"
  | .japanese => "Japanese"
  | .filipino => "Filipino"
  | .other name => name

/-- Values stored in the settings store (`QVariant`s used by this program):
window geometries, file-path lists, and a language preference. -/
inductive SettingsValue where
  | rect (r : Rect)
  | paths (ps : List String)
  | lang (l : Language)
deriving Repr, DecidableEq

/-- One event of the settings store's operation trace — used to state the
group-scoping discipline (`beginGroup`/`endGroup` pairing). -/
inductive StoreEvent where
  | beginG (g : String)
  | endG
  | access (fullKey : String)
deriving Repr, DecidableEq

/-- Full key under a stack of open groups: groups are joined with `/`, the
outermost first, ending in the bare key (Qt's group-prefixed key). -/
def joinKey : List String → String → String
  | [], key => key
  | g :: gs, key => g ++ "/" ++ joinKey gs key

/-- The `QtCore.QSettings` store: the in-memory key/value map (`data`, most
recent write first), the durably committed map (`disk`), the stack of open
groups, and a trace of the store operations performed on it. -/
structure QSettings where
  data : List (String × SettingsValue)
  disk : List (String × SettingsValue)
  groupStack : List String
  trace : List StoreEvent
deriving Repr, DecidableEq

/-- Qt's `QSettings.beginGroup(name)`: pushes a group onto the stack. -/
def QSettings.beginGroup (s : QSettings) (g : String) : QSettings :=
  { s with groupStack := s.groupStack ++ [g], trace := s.trace ++ [.beginG g] }

/-- Qt's `QSettings.endGroup()`: pops the innermost open group. -/
def QSettings.endGroup (s : QSettings) : QSettings :=
  { s with groupStack := s.groupStack.dropLast, trace := s.trace ++ [.endG] }

/-- The key an access resolves to under the currently open groups. -/
def QSettings.fullKey (s : QSettings) (key : String) : String :=
  joinKey s.groupStack key

/-- Qt's `QSettings.value(key, default)`: returns the stored value for the
group-prefixed key, or the caller-supplied default when the key is absent
(never an error).  Also returns the store with the access traced. -/
def QSettings.value (s : QSettings) (key : String) (deflt : SettingsValue) :
    QSettings × SettingsValue :=
  ({ s with trace := s.trace ++ [.access (s.fullKey key)] },
   (s.data.lookup (s.fullKey key)).getD deflt)

/-- Qt's `QSettings.setValue(key, v)`: stages a value for the group-prefixed key
in the in-memory map. -/
def QSettings.setValue (s : QSettings) (key : String) (v : SettingsValue) :
    QSettings :=
  { s with
    data := (s.fullKey key, v) :: s.data,
    trace := s.trace ++ [.access (s.fullKey key)] }

/-- Qt's `QSettings.sync()`: commits the in-memory map durably. -/
def QSettings.sync (s : QSettings) : QSettings :=
  { s with disk := s.data }

/-- Opening the store in a fresh process: the in-memory map is read back
from what was committed; no group is open, no operation traced yet. -/
def QSettings.freshOpen (disk : List (String × SettingsValue)) : QSettings :=
  { data := disk, disk := disk, groupStack := [], trace := [] }

/-- Balance check for a store trace at a given open-group depth: every
`beginGroup` is matched by an `endGroup`, no `endGroup` without an open
group, and the trace ends with every group closed. -/
def balancedFrom : Nat → List StoreEvent → Bool
  | d, [] => d == 0
  | d, .beginG _ :: rest => balancedFrom (d + 1) rest
  | d, .endG :: rest => d != 0 && balancedFrom (d - 1) rest
  | d, .access _ :: rest => balancedFrom d rest

/-- State of the application's `QTranslator` as it matters here: whether it
is currently installed on the application (`installTranslator` /
`removeTranslator`), and the pack file last loaded into it. -/
structure TranslatorState where
  installed : Bool
  loadedPath : Option String
deriving Repr, DecidableEq

/-- One push button inside the settings window's `frame_languages`
(a flag button such as `pushButton_english`): its object name and whether
it is checked. -/
structure LangButton where
  objectName : String
  checked : Bool
deriving Repr, DecidableEq

/-- State of `MainWindow` as the claims see it: the window geometry, the
text of `label_musicFiles`, the window's static texts (written by
`retranslateUi`), and the command-log lines of `textBrowser_command`. -/
structure MainWindowState where
  geometry : Rect
  labelMusicFiles : String
  texts : List (String × String)
  commandLines : List String
deriving Repr, DecidableEq

/-- State of `SettingsWindow`: geometry, static texts, the flag buttons of
`frame_languages` in child order, the current page index of
`stackedWidget_11`, the id of the checked button of the exclusive
`menu_group` (`QButtonGroup` auto-unchecks the others), the stacked
widget's minimum width, and the visibility of `pushButton_clearCommand`. -/
structure SettingsWindowState where
  geometry : Rect
  texts : List (String × String)
  languageButtons : List LangButton
  currentPageIndex : Nat
  checkedMenuButton : Nat
  stackedMinWidth : Int
  clearCommandVisible : Bool
deriving Repr, DecidableEq

/-- The window registry `app.windows` with its two fixed keys
`'main'` and `'settings'`. -/
structure Windows where
  main : MainWindowState
  settingsWin : SettingsWindowState
deriving Repr, DecidableEq

/-- The mutable application state shared through `CustomApplication`:
the settings store, the translator, and the window registry — `none`
while `CustomApplication.__init__` has not yet assigned `self.windows`
(the `hasattr(self.app, 'windows')` guard in `load_language`). -/
structure AppState where
  settings : QSettings
  translator : TranslatorState
  windows : Option Windows
deriving Repr, DecidableEq

/-- The environment the program runs against: the localization resource
directory and a file-existence oracle (`os.path.isfile`), the primary
screen size, the static texts the generated `retranslateUi` of each window
produces from the active translator state, and the
`minimumFrameWidth` property of each settings page. -/
structure Env where
  localizationDir : String
  fileExists : String → Bool
  primaryScreenW : Nat
  primaryScreenH : Nat
  mainTexts : TranslatorState → List (String × String)
  settingsTexts : TranslatorState → List (String × String)
  pageMinWidth : Nat → Int

/-- Modelled from the spec: the generated `Ui_MainWindow.retranslateUi`
(module `.windows.mainwindow`, not part of this repository's sources)
"re-applies all static text for currently-visible widgets" as a pure
function of the active translator state.  `MainWindow.update_translation`
calls exactly `self.ui.retranslateUi(self)`. -/
def MainWindow.update_translation (env : Env) (tr : TranslatorState)
    (w : MainWindowState) : MainWindowState :=
  { w with texts := env.mainTexts tr }

/-- Modelled from the spec: the generated `Ui_SettingsWindow.retranslateUi`
(module `.windows.settingswindow`, not part of this repository's sources)
re-applies all static text as a pure function of the active translator
state.  `SettingsWindow.update_translation` calls exactly
`self.ui.retranslateUi(self)`. -/
def SettingsWindow.update_translation (env : Env) (tr : TranslatorState)
    (s : SettingsWindowState) : SettingsWindowState :=
  { s with texts := env.settingsTexts tr }

/-- The pack file path `os.path.join(localizationDir, f'{language_str}.qm')`
with `language_str = languageToString(language).lower()`. -/
def translation_path (env : Env) (language : Language) : String :=
  env.localizationDir ++ "/" ++ (languageToString language).toLower ++ ".qm"

/-- The button-checking loop at the end of `Translator.load_language`: every
push button of `frame_languages` is checked exactly when its object name is
`pushButton_` followed by the lowercased language name, unchecked
otherwise. -/
def set_language_buttons (buttons : List LangButton) (language : Language) :
    List LangButton :=
  buttons.map fun b =>
    if b.objectName == "pushButton_" ++ (languageToString language).toLower then
      { b with checked := true }
    else
      { b with checked := false }

/-- The broadcast block of `Translator.load_language`: when the application
has its window registry, call `update_translation` on every window and
re-check the language buttons for `language`; otherwise do nothing. -/
def broadcast_translation (env : Env) (st : AppState) (language : Language) :
    AppState :=
  match st.windows with
  | none => st
  | some ws =>
      { st with
        windows := some
          { main := MainWindow.update_translation env st.translator ws.main,
            settingsWin :=
              { SettingsWindow.update_translation env st.translator ws.settingsWin with
                languageButtons :=
                  set_language_buttons ws.settingsWin.languageButtons language } } }

/-- Embedding of `Translator.load_language`.  English: remove the installed
translator.  Other language: resolve the pack path; if the file is missing,
fall back to the default-language call (the self-recursion of the source);
if present, load and install it.  Either way the change is broadcast. -/
def load_language (env : Env) (st : AppState) (language : Language) : AppState :=
  if language = Language.english then
    broadcast_translation env
      { st with translator := { st.translator with installed := false } }
      Language.english
  else
    let path := translation_path env language
    if env.fileExists path then
      broadcast_translation env
        { st with translator := { installed := true, loadedPath := some path } }
        language
    else
      load_language env st Language.english
termination_by if language = Language.english then 0 else 1
decreasing_by simp_all

/-- Fuel-indexed variant of `load_language`, used to state that the
self-recursive fallback recurses at most once: with fuel `n` the function
answers `none` once the call depth would exceed `n`. -/
def load_language_fuel (env : Env) (st : AppState) (language : Language) :
    Nat → Option AppState
  | 0 => none
  | fuel + 1 =>
    if language = Language.english then
      some (broadcast_translation env
        { st with translator := { st.translator with installed := false } }
        Language.english)
    else
      let path := translation_path env language
      if env.fileExists path then
        some (broadcast_translation env
          { st with translator := { installed := true, loadedPath := some path } }
          language)
      else
        load_language_fuel env st Language.english fuel

/-- The language that is active once `load_language env st language`
returns: the requested one when it is English or its pack file exists, and
English (the silent fallback) otherwise. -/
def newly_active_language (env : Env) (language : Language) : Language :=
  if language = Language.english then Language.english
  else if env.fileExists (translation_path env language) then language
  else Language.english

/-- A dropped URL (`QtCore.QUrl`), reduced to what the handlers read from
it: its local file path (`url.toLocalFile()`). -/
structure Url where
  toLocalFile : String
deriving Repr, DecidableEq

/-- Outcome of a drag-enter handler: `event.accept()` or `event.ignore()`. -/
inductive DragResponse where
  | accept
  | ignore
deriving Repr, DecidableEq

/-- Embedding of `MainWindow.label_musicFiles_dragEnterEvent`: accept when
the event's mime data carries at least one URL (Python truthiness of the
list), ignore otherwise. -/
def label_musicFiles_dragEnterEvent (urls : List Url) : DragResponse :=
  if !urls.isEmpty then
    DragResponse.accept
  else
    DragResponse.ignore

/-- Embedding of `MainWindow.label_musicFiles_dropEvent`: collect the local
file path of every URL of the event in order, store the list under
`seperation/input_paths`, and display the count in `label_musicFiles`. -/
def label_musicFiles_dropEvent (settings : QSettings) (w : MainWindowState)
    (urls : List Url) : QSettings × MainWindowState :=
  let input_paths := urls.map Url.toLocalFile
  let settings := settings.setValue "seperation/input_paths"
    (SettingsValue.paths input_paths)
  (settings,
   { w with labelMusicFiles := "Total Music File/s: " ++ toString input_paths.length })

/-- The default centre point both `load_settings` methods compute:
half the primary screen's width and height (the Python float halves are
truncated when stored into the integer `QPoint`). -/
def default_center_point (env : Env) : Int × Int :=
  ((env.primaryScreenW / 2 : Nat), (env.primaryScreenH / 2 : Nat))

/-- Reading a geometry variant back from the store.  In this program the
`geometry` keys only ever hold rectangles, so the fallback is never taken
on the program's own data. -/
def SettingsValue.toRect (v : SettingsValue) (fallback : Rect) : Rect :=
  match v with
  | .rect r => r
  | _ => fallback

/-- Embedding of `MainWindow.load_settings`: compute the screen-centred
default from the current geometry, read `geometry` under the group
`mainwindow`, close the group, and apply the result via `setGeometry`. -/
def MainWindow.load_settings (env : Env) (settings : QSettings)
    (w : MainWindowState) : QSettings × MainWindowState :=
  let default_geometry := w.geometry.moveCenter (default_center_point env)
  let s := settings.beginGroup "mainwindow"
  let (s, geometry) := s.value "geometry" (SettingsValue.rect default_geometry)
  let s := s.endGroup
  (s, { w with geometry := geometry.toRect default_geometry })

/-- Embedding of `MainWindow.save_settings`: write the current geometry
under the group `mainwindow`, close the group, and commit with `sync`. -/
def MainWindow.save_settings (settings : QSettings) (w : MainWindowState) :
    QSettings :=
  let s := settings.beginGroup "mainwindow"
  let s := s.setValue "geometry" (SettingsValue.rect w.geometry)
  let s := s.endGroup
  s.sync

/-- Embedding of `SettingsWindow.load_settings` (group `settingswindow`). -/
def SettingsWindow.load_settings (env : Env) (settings : QSettings)
    (s0 : SettingsWindowState) : QSettings × SettingsWindowState :=
  let default_geometry := s0.geometry.moveCenter (default_center_point env)
  let s := settings.beginGroup "settingswindow"
  let (s, geometry) := s.value "geometry" (SettingsValue.rect default_geometry)
  let s := s.endGroup
  (s, { s0 with geometry := geometry.toRect default_geometry })

/-- Embedding of `SettingsWindow.save_settings` (group `settingswindow`). -/
def SettingsWindow.save_settings (settings : QSettings)
    (s0 : SettingsWindowState) : QSettings :=
  let s := settings.beginGroup "settingswindow"
  let s := s.setValue "geometry" (SettingsValue.rect s0.geometry)
  let s := s.endGroup
  s.sync

/-- Embedding of `SettingsWindow.menu_loadPage(index)`: show page `index`
of the stacked widget, check the menu radio button registered under id
`index` (the exclusive `QButtonGroup` unchecks the others), and set the
stacked widget's minimum width from the page's `minimumFrameWidth`. -/
def SettingsWindow.menu_loadPage (env : Env) (s0 : SettingsWindowState)
    (index : Nat) : SettingsWindowState :=
  { s0 with
    currentPageIndex := index,
    checkedMenuButton := index,
    stackedMinWidth := env.pageMinWidth index }

/-- Arithmetic core of centring: moving the corner to `x - (n-1)/2` puts the
Qt centre of a span of positive length `n` back at `x`, for non-negative
`x` (truncating and Euclidean division agree there). -/
lemma center_calc (x : Int) (n : Nat) (hn : 1 ≤ n) (hx : 0 ≤ x) :
    ((x - ((n : Int) - 1).tdiv 2) + ((x - ((n : Int) - 1).tdiv 2) + (n : Int) - 1)).tdiv 2
      = x := by
  have h1 : (0 : Int) ≤ (n : Int) - 1 := by omega
  rw [Int.tdiv_eq_ediv h1 (by norm_num)]
  have h2 : (0 : Int) ≤ (x - ((n : Int) - 1) / 2) + ((x - ((n : Int) - 1) / 2) + (n : Int) - 1) := by
    omega
  rw [Int.tdiv_eq_ediv h2 (by norm_num)]
  omega

/-- Moving a rectangle of positive size to a non-negative centre point puts
its Qt centre exactly there, keeping its size. -/
lemma Rect.moveCenter_center (r : Rect) (p : Int × Int)
    (hw : 1 ≤ r.w) (hh : 1 ≤ r.h) (hp1 : 0 ≤ p.1) (hp2 : 0 ≤ p.2) :
    (r.moveCenter p).center = p ∧ (r.moveCenter p).w = r.w ∧ (r.moveCenter p).h = r.h := by
  obtain ⟨px, py⟩ := p
  refine ⟨?_, rfl, rfl⟩
  simp only [Rect.moveCenter, Rect.center, Prod.mk.injEq]
  exact ⟨center_calc px r.w hw hp1, center_calc py r.h hh hp2⟩

/-- Specification of the button-checking loop: in its result a button is
checked exactly when its name is `pushButton_` + the lowercased language
name, and all button names are preserved. -/
lemma set_language_buttons_spec (bs : List LangButton) (language : Language) :
    ∀ b ∈ set_language_buttons bs language,
      (b.checked = true ↔
        b.objectName = "pushButton_" ++ (languageToString language).toLower) := by
  intro b hb
  simp only [set_language_buttons, List.mem_map] at hb
  obtain ⟨a, _, rfl⟩ := hb
  by_cases h : a.objectName == "pushButton_" ++ (languageToString language).toLower
  · simp [h]
    exact of_decide_eq_true h
  · simp [h]
    intro hc
    exact absurd (decide_eq_true (by simpa using hc)) (by simpa using h)

/-- Closed form of `load_language`: the missing-pack fallback call collapses
to the default-language branch. -/
lemma load_language_closed (env : Env) (st : AppState) (language : Language) :
    load_language env st language =
      if language = Language.english then
        broadcast_translation env
          { st with translator := { st.translator with installed := false } }
          Language.english
      else if env.fileExists (translation_path env language) then
        broadcast_translation env
          { st with translator :=
              { installed := true, loadedPath := some (translation_path env language) } }
          language
      else
        broadcast_translation env
          { st with translator := { st.translator with installed := false } }
          Language.english := by
  by_cases h : language = Language.english
  · conv_lhs => rw [load_language]
    simp [h]
  · by_cases hf : env.fileExists (translation_path env language)
    · conv_lhs => rw [load_language]
      simp [h, hf]
    · conv_lhs => rw [load_language]
      simp only [h, hf, if_false, Bool.false_eq_true]
      conv_lhs => rw [load_language]
      simp

/-- The group-prefixed key of the main window's geometry. -/
lemma joinKey_mainwindow : joinKey ["mainwindow"] "geometry" = "mainwindow/geometry" := rfl

/-- The group-prefixed key of the settings window's geometry. -/
lemma joinKey_settingswindow :
    joinKey ["settingswindow"] "geometry" = "settingswindow/geometry" := rfl

/-- A concrete environment for witnesses: no language pack file exists,
a 1920x1080 primary screen, and simple static-text tables. -/
def envNoPacks : Env :=
  { localizationDir := "localization",
    fileExists := fun _ => false,
    primaryScreenW := 1920,
    primaryScreenH := 1080,
    mainTexts := fun tr =>
      [("label_musicFiles", if tr.installed then "translated" else "default")],
    settingsTexts := fun tr =>
      [("label_language", if tr.installed then "translated" else "default")],
    pageMinWidth := fun _ => 380 }

/-- A concrete environment for witnesses in which every pack file exists. -/
def envAllPacks : Env :=
  { envNoPacks with fileExists := fun _ => true }

/-- A concrete empty settings store for witnesses. -/
def storeEmpty : QSettings :=
  { data := [], disk := [], groupStack := [], trace := [] }

/-- A concrete main-window state for witnesses. -/
def mainWin0 : MainWindowState :=
  { geometry := { x := 10, y := 20, w := 800, h := 600 },
    labelMusicFiles := "Drag your music files here",
    texts := [],
    commandLines := [] }

/-- A concrete settings-window state for witnesses, with the four flag
buttons of `frame_languages`. -/
def settingsWin0 : SettingsWindowState :=
  { geometry := { x := 5, y := 6, w := 500, h := 400 },
    texts := [],
    languageButtons :=
      [{ objectName := "pushButton_english", checked := true },
       { objectName := "pushButton_german", checked := false },
       { objectName := "pushButton_japanese", checked := false },
       { objectName := "pushButton_filipino", checked := false }],
    currentPageIndex := 0,
    checkedMenuButton := 0,
    stackedMinWidth := 0,
    clearCommandVisible := false }

/-- A concrete application state for witnesses, with both windows in the
registry. -/
def app0 : AppState :=
  { settings := storeEmpty,
    translator := { installed := false, loadedPath := none },
    windows := some { main := mainWin0, settingsWin := settingsWin0 } }

/-- C7: the translation broadcast is idempotent — for either window,
calling `update_translation` twice with no intervening language change
yields exactly the state one call yields. -/
theorem update_translation_idempotent (env : Env) (tr : TranslatorState)
    (w : MainWindowState) (s : SettingsWindowState) :
    MainWindow.update_translation env tr (MainWindow.update_translation env tr w)
        = MainWindow.update_translation env tr w ∧
      SettingsWindow.update_translation env tr (SettingsWindow.update_translation env tr s)
        = SettingsWindow.update_translation env tr s :=
  ⟨rfl, rfl⟩

/-- C10: after `menu_loadPage(index)` with `index` in `0..3`, the stacked
widget shows page `index`, the menu button with id `index` is the checked
one, and hence the checked menu button identifies the displayed page. -/
theorem menu_loadPage_checked_matches_page (env : Env) (s0 : SettingsWindowState)
    (index : Nat) (h : index ≤ 3) :
    (SettingsWindow.menu_loadPage env s0 index).currentPageIndex = index ∧
      (SettingsWindow.menu_loadPage env s0 index).checkedMenuButton = index ∧
      (SettingsWindow.menu_loadPage env s0 index).checkedMenuButton
        = (SettingsWindow.menu_loadPage env s0 index).currentPageIndex :=
  ⟨rfl, rfl, rfl⟩

/-- Witness for C10 at page index 2. -/
theorem menu_loadPage_checked_matches_page_witness :
    2 ≤ 3 ∧
      ((SettingsWindow.menu_loadPage envNoPacks settingsWin0 2).currentPageIndex = 2 ∧
        (SettingsWindow.menu_loadPage envNoPacks settingsWin0 2).checkedMenuButton = 2 ∧
        (SettingsWindow.menu_loadPage envNoPacks settingsWin0 2).checkedMenuButton
          = (SettingsWindow.menu_loadPage envNoPacks settingsWin0 2).currentPageIndex) :=
  ⟨by decide, menu_loadPage_checked_matches_page envNoPacks settingsWin0 2 (by decide)⟩

/-- C9: `load_language` terminates on every input with call depth at most
two — fuel 2 always suffices for the fuel-indexed variant, which then
agrees with the total function; the default-language branch never
recurses, so the missing-pack fallback recurses exactly once. -/
theorem load_language_terminates_fuel_two (env : Env) (st : AppState)
    (language : Language) :
    load_language_fuel env st language 2 = some (load_language env st language) := by
  rw [load_language_closed]
  by_cases h : language = Language.english
  · simp [load_language_fuel, h]
  · by_cases hf : env.fileExists (translation_path env language)
    · simp [load_language_fuel, h, hf]
    · simp [load_language_fuel, h, hf]

/-- C3: for a non-default language whose pack file is missing,
`load_language` is observably identical to loading the default (English)
language from the same state. -/
theorem load_language_missing_pack_fallback (env : Env) (st : AppState)
    (language : Language) (hL : language ≠ Language.english)
    (hmiss : env.fileExists (translation_path env language) = false) :
    load_language env st language = load_language env st Language.english := by
  rw [load_language_closed, load_language_closed]
  simp [hL, hmiss]

/-- Witness for C3: German with no pack file present. -/
theorem load_language_missing_pack_fallback_witness :
    (Language.german ≠ Language.english ∧
      envNoPacks.fileExists (translation_path envNoPacks Language.german) = false) ∧
      load_language envNoPacks app0 Language.german
        = load_language envNoPacks app0 Language.english :=
  ⟨⟨by decide, rfl⟩,
   load_language_missing_pack_fallback envNoPacks app0 Language.german (by decide) rfl⟩

/-- C2: on every branch, `load_language` leaves the registry populated and,
before returning, has invoked `update_translation` on every window of the
registry (their static texts are those `retranslateUi` produces from the
new translator state), and has set each push button of the settings
window's language frame to checked exactly when its object name is
`pushButton_` + the lowercased name of the newly active language. -/
theorem load_language_broadcasts_and_checks_buttons (env : Env) (st : AppState)
    (language : Language) (ws : Windows) (h : st.windows = some ws) :
    ∃ ws', (load_language env st language).windows = some ws' ∧
      ws'.main = MainWindow.update_translation env
        (load_language env st language).translator ws.main ∧
      ws'.settingsWin.texts
        = env.settingsTexts (load_language env st language).translator ∧
      ∀ b ∈ ws'.settingsWin.languageButtons,
        (b.checked = true ↔
          b.objectName
            = "pushButton_"
              ++ (languageToString (newly_active_language env language)).toLower) := by
  rw [load_language_closed]
  unfold newly_active_language
  by_cases heng : language = Language.english
  · simp only [heng, if_true]
    simp only [broadcast_translation, h]
    exact ⟨_, rfl, rfl, rfl,
      set_language_buttons_spec ws.settingsWin.languageButtons Language.english⟩
  · by_cases hf : env.fileExists (translation_path env language)
    · simp only [heng, if_false, hf, if_true]
      simp only [broadcast_translation, h]
      exact ⟨_, rfl, rfl, rfl,
        set_language_buttons_spec ws.settingsWin.languageButtons language⟩
    · simp only [heng, if_false, hf, Bool.false_eq_true]
      simp only [broadcast_translation, h]
      exact ⟨_, rfl, rfl, rfl,
        set_language_buttons_spec ws.settingsWin.languageButtons Language.english⟩

/-- Witness for C2: loading Japanese (pack present) with both windows in
the registry. -/
theorem load_language_broadcasts_witness :
    app0.windows = some { main := mainWin0, settingsWin := settingsWin0 } ∧
      ∃ ws', (load_language envAllPacks app0 Language.japanese).windows = some ws' ∧
        ws'.main = MainWindow.update_translation envAllPacks
          (load_language envAllPacks app0 Language.japanese).translator mainWin0 ∧
        ws'.settingsWin.texts
          = envAllPacks.settingsTexts
              (load_language envAllPacks app0 Language.japanese).translator ∧
        ∀ b ∈ ws'.settingsWin.languageButtons,
          (b.checked = true ↔
            b.objectName
              = "pushButton_"
                ++ (languageToString
                    (newly_active_language envAllPacks Language.japanese)).toLower) :=
  ⟨rfl,
   load_language_broadcasts_and_checks_buttons envAllPacks app0 Language.japanese
     { main := mainWin0, settingsWin := settingsWin0 } rfl⟩

/-- A settings store already holding one input path, used to exhibit that a
zero-URL drop does change state. -/
def storeOnePath : QSettings :=
  { data := [("seperation/input_paths", SettingsValue.paths ["a.mp3"])],
    disk := [],
    groupStack := [],
    trace := [] }

/-- A main window already displaying a count of one music file. -/
def mainWinOneFile : MainWindowState :=
  { mainWin0 with labelMusicFiles := "Total Music File/s: 1" }

/-- C1, counterexample: delivered to the handler with zero file URLs, the
drop is not ignored — `label_musicFiles_dropEvent` overwrites the stored
`seperation/input_paths` (here from `["a.mp3"]` to `[]`) and rewrites the
displayed count (here from 1 to 0). -/
theorem dropEvent_zero_urls_changes_state :
    ((label_musicFiles_dropEvent storeOnePath mainWinOneFile []).1.data.lookup
        "seperation/input_paths"
      ≠ storeOnePath.data.lookup "seperation/input_paths") ∧
      (label_musicFiles_dropEvent storeOnePath mainWinOneFile []).2.labelMusicFiles
        ≠ mainWinOneFile.labelMusicFiles := by
  decide

/-- C1, amended: `label_musicFiles_dragEnterEvent` accepts exactly the drag
events carrying at least one URL and ignores the rest (so a zero-URL drop
is never delivered through the accepted drag-and-drop flow); the drop
handler itself, invoked with zero URLs, does not leave the state unchanged
in general — it stores the empty path list and displays a count of 0. -/
theorem dragEnter_filters_dropEvent_zero_urls_writes_empty (settings : QSettings)
    (w : MainWindowState) (hstack : settings.groupStack = []) :
    (∀ urls : List Url,
      label_musicFiles_dragEnterEvent urls = DragResponse.accept ↔ urls ≠ []) ∧
      (label_musicFiles_dropEvent settings w []).1.data.lookup "seperation/input_paths"
        = some (SettingsValue.paths []) ∧
      (label_musicFiles_dropEvent settings w []).2.labelMusicFiles
        = "Total Music File/s: 0" := by
  refine ⟨?_, ?_, rfl⟩
  · intro urls
    cases urls <;> simp [label_musicFiles_dragEnterEvent]
  · simp [label_musicFiles_dropEvent, QSettings.setValue, QSettings.fullKey, hstack,
      joinKey, List.lookup]

/-- Witness for the amended C1 on a concrete store and window. -/
theorem dragEnter_filters_dropEvent_witness :
    storeOnePath.groupStack = [] ∧
      ((∀ urls : List Url,
        label_musicFiles_dragEnterEvent urls = DragResponse.accept ↔ urls ≠ []) ∧
        (label_musicFiles_dropEvent storeOnePath mainWinOneFile []).1.data.lookup
            "seperation/input_paths"
          = some (SettingsValue.paths []) ∧
        (label_musicFiles_dropEvent storeOnePath mainWinOneFile []).2.labelMusicFiles
          = "Total Music File/s: 0") :=
  ⟨rfl, dragEnter_filters_dropEvent_zero_urls_writes_empty storeOnePath mainWinOneFile rfl⟩

/-- C6: a drop event with `N ≥ 1` file URLs stores exactly those URLs'
local file paths, in event order, under `seperation/input_paths`, and
displays the count `N` in the label. -/
theorem dropEvent_sets_paths_and_count (settings : QSettings) (w : MainWindowState)
    (urls : List Url) (hstack : settings.groupStack = []) (hne : urls ≠ []) :
    (label_musicFiles_dropEvent settings w urls).1.data.lookup "seperation/input_paths"
        = some (SettingsValue.paths (urls.map Url.toLocalFile)) ∧
      (label_musicFiles_dropEvent settings w urls).2.labelMusicFiles
        = "Total Music File/s: " ++ toString urls.length := by
  constructor
  · simp [label_musicFiles_dropEvent, QSettings.setValue, QSettings.fullKey, hstack,
      joinKey, List.lookup]
  · simp [label_musicFiles_dropEvent]

/-- Witness for C6: two dropped files. -/
theorem dropEvent_sets_paths_and_count_witness :
    (storeEmpty.groupStack = [] ∧
      ([⟨"/music/a.mp3"⟩, ⟨"/music/b.wav"⟩] : List Url) ≠ []) ∧
      ((label_musicFiles_dropEvent storeEmpty mainWin0
          [⟨"/music/a.mp3"⟩, ⟨"/music/b.wav"⟩]).1.data.lookup "seperation/input_paths"
        = some (SettingsValue.paths
            (([⟨"/music/a.mp3"⟩, ⟨"/music/b.wav"⟩] : List Url).map Url.toLocalFile)) ∧
      (label_musicFiles_dropEvent storeEmpty mainWin0
          [⟨"/music/a.mp3"⟩, ⟨"/music/b.wav"⟩]).2.labelMusicFiles
        = "Total Music File/s: "
          ++ toString ([⟨"/music/a.mp3"⟩, ⟨"/music/b.wav"⟩] : List Url).length) :=
  ⟨⟨rfl, by decide⟩,
   dropEvent_sets_paths_and_count storeEmpty mainWin0
     [⟨"/music/a.mp3"⟩, ⟨"/music/b.wav"⟩] rfl (by decide)⟩

/-- C4: for either window, saving a geometry (write under the window's
group, then `sync`) and reading it back through `load_settings` in a fresh
process returns and applies exactly that geometry. -/
theorem geometry_save_load_roundtrip (env : Env) (st : QSettings)
    (hstack : st.groupStack = [])
    (wm wm2 : MainWindowState) (ss ss2 : SettingsWindowState) :
    (MainWindow.load_settings env
        (QSettings.freshOpen (MainWindow.save_settings st wm).disk) wm2).2.geometry
      = wm.geometry ∧
    (SettingsWindow.load_settings env
        (QSettings.freshOpen (SettingsWindow.save_settings st ss).disk) ss2).2.geometry
      = ss.geometry := by
  constructor <;>
    simp [MainWindow.load_settings, MainWindow.save_settings,
      SettingsWindow.load_settings, SettingsWindow.save_settings,
      QSettings.freshOpen, QSettings.beginGroup, QSettings.endGroup,
      QSettings.setValue, QSettings.value, QSettings.sync, QSettings.fullKey,
      hstack, joinKey, List.lookup, SettingsValue.toRect]

/-- Witness for C4 on concrete geometries and an empty store. -/
theorem geometry_save_load_roundtrip_witness :
    storeEmpty.groupStack = [] ∧
      ((MainWindow.load_settings envNoPacks
          (QSettings.freshOpen (MainWindow.save_settings storeEmpty mainWin0).disk)
          mainWinOneFile).2.geometry
        = mainWin0.geometry ∧
      (SettingsWindow.load_settings envNoPacks
          (QSettings.freshOpen (SettingsWindow.save_settings storeEmpty settingsWin0).disk)
          settingsWin0).2.geometry
        = settingsWin0.geometry) :=
  ⟨rfl,
   geometry_save_load_roundtrip envNoPacks storeEmpty rfl mainWin0 mainWinOneFile
     settingsWin0 settingsWin0⟩

/-- C5: when a window's group holds no saved `geometry` key, `load_settings`
applies the default geometry — the window keeps its current size and its
Qt centre lands exactly on (primary screen width / 2, height / 2). -/
theorem load_settings_default_geometry_centered (env : Env) (st : QSettings)
    (wm : MainWindowState) (ss : SettingsWindowState)
    (hstack : st.groupStack = [])
    (hm : st.data.lookup "mainwindow/geometry" = none)
    (hs : st.data.lookup "settingswindow/geometry" = none)
    (hw1 : 1 ≤ wm.geometry.w) (hh1 : 1 ≤ wm.geometry.h)
    (hw2 : 1 ≤ ss.geometry.w) (hh2 : 1 ≤ ss.geometry.h) :
    ((MainWindow.load_settings env st wm).2.geometry.center = default_center_point env ∧
      (MainWindow.load_settings env st wm).2.geometry.w = wm.geometry.w ∧
      (MainWindow.load_settings env st wm).2.geometry.h = wm.geometry.h) ∧
    ((SettingsWindow.load_settings env st ss).2.geometry.center = default_center_point env ∧
      (SettingsWindow.load_settings env st ss).2.geometry.w = ss.geometry.w ∧
      (SettingsWindow.load_settings env st ss).2.geometry.h = ss.geometry.h) := by
  have hp1 : 0 ≤ (default_center_point env).1 := by
    simp only [default_center_point]
    exact Int.natCast_nonneg _
  have hp2 : 0 ≤ (default_center_point env).2 := by
    simp only [default_center_point]
    exact Int.natCast_nonneg _
  have h1 : (MainWindow.load_settings env st wm).2.geometry
      = wm.geometry.moveCenter (default_center_point env) := by
    simp [MainWindow.load_settings, QSettings.beginGroup, QSettings.value,
      QSettings.endGroup, QSettings.fullKey, hstack, joinKey_mainwindow, hm,
      SettingsValue.toRect]
  have h2 : (SettingsWindow.load_settings env st ss).2.geometry
      = ss.geometry.moveCenter (default_center_point env) := by
    simp [SettingsWindow.load_settings, QSettings.beginGroup, QSettings.value,
      QSettings.endGroup, QSettings.fullKey, hstack, joinKey_settingswindow, hs,
      SettingsValue.toRect]
  rw [h1, h2]
  exact ⟨Rect.moveCenter_center wm.geometry (default_center_point env) hw1 hh1 hp1 hp2,
    Rect.moveCenter_center ss.geometry (default_center_point env) hw2 hh2 hp1 hp2⟩

/-- Witness for C5 on an empty store and the concrete windows. -/
theorem load_settings_default_geometry_centered_witness :
    (storeEmpty.groupStack = [] ∧
      storeEmpty.data.lookup "mainwindow/geometry" = none ∧
      storeEmpty.data.lookup "settingswindow/geometry" = none ∧
      1 ≤ mainWin0.geometry.w ∧ 1 ≤ mainWin0.geometry.h ∧
      1 ≤ settingsWin0.geometry.w ∧ 1 ≤ settingsWin0.geometry.h) ∧
      (((MainWindow.load_settings envNoPacks storeEmpty mainWin0).2.geometry.center
          = default_center_point envNoPacks ∧
        (MainWindow.load_settings envNoPacks storeEmpty mainWin0).2.geometry.w
          = mainWin0.geometry.w ∧
        (MainWindow.load_settings envNoPacks storeEmpty mainWin0).2.geometry.h
          = mainWin0.geometry.h) ∧
      ((SettingsWindow.load_settings envNoPacks storeEmpty settingsWin0).2.geometry.center
          = default_center_point envNoPacks ∧
        (SettingsWindow.load_settings envNoPacks storeEmpty settingsWin0).2.geometry.w
          = settingsWin0.geometry.w ∧
        (SettingsWindow.load_settings envNoPacks storeEmpty settingsWin0).2.geometry.h
          = settingsWin0.geometry.h)) :=
  ⟨⟨rfl, rfl, rfl, by decide, by decide, by decide, by decide⟩,
   load_settings_default_geometry_centered envNoPacks storeEmpty mainWin0 settingsWin0
     rfl rfl rfl (by decide) (by decide) (by decide) (by decide)⟩

/-- C8: on every execution path of the four settings methods, group scoping
is stack-disciplined — the produced store trace is exactly
open-group / one in-group access / close-group, that trace balances, and
the group stack is restored before the method returns. -/
theorem settings_group_discipline (env : Env) (st : QSettings)
    (wm : MainWindowState) (ss : SettingsWindowState)
    (hstack : st.groupStack = []) (htrace : st.trace = []) :
    ((MainWindow.load_settings env st wm).1.trace
        = [.beginG "mainwindow", .access "mainwindow/geometry", .endG] ∧
      balancedFrom 0 (MainWindow.load_settings env st wm).1.trace = true ∧
      (MainWindow.load_settings env st wm).1.groupStack = []) ∧
    ((MainWindow.save_settings st wm).trace
        = [.beginG "mainwindow", .access "mainwindow/geometry", .endG] ∧
      balancedFrom 0 (MainWindow.save_settings st wm).trace = true ∧
      (MainWindow.save_settings st wm).groupStack = []) ∧
    ((SettingsWindow.load_settings env st ss).1.trace
        = [.beginG "settingswindow", .access "settingswindow/geometry", .endG] ∧
      balancedFrom 0 (SettingsWindow.load_settings env st ss).1.trace = true ∧
      (SettingsWindow.load_settings env st ss).1.groupStack = []) ∧
    ((SettingsWindow.save_settings st ss).trace
        = [.beginG "settingswindow", .access "settingswindow/geometry", .endG] ∧
      balancedFrom 0 (SettingsWindow.save_settings st ss).trace = true ∧
      (SettingsWindow.save_settings st ss).groupStack = []) := by
  have hm : (MainWindow.load_settings env st wm).1.trace
      = [.beginG "mainwindow", .access "mainwindow/geometry", .endG] := by
    simp [MainWindow.load_settings, QSettings.beginGroup, QSettings.value,
      QSettings.endGroup, QSettings.fullKey, hstack, htrace, joinKey_mainwindow]
  have hm2 : (MainWindow.save_settings st wm).trace
      = [.beginG "mainwindow", .access "mainwindow/geometry", .endG] := by
    simp [MainWindow.save_settings, QSettings.beginGroup, QSettings.setValue,
      QSettings.endGroup, QSettings.sync, QSettings.fullKey, hstack, htrace,
      joinKey_mainwindow]
  have hs1 : (SettingsWindow.load_settings env st ss).1.trace
      = [.beginG "settingswindow", .access "settingswindow/geometry", .endG] := by
    simp [SettingsWindow.load_settings, QSettings.beginGroup, QSettings.value,
      QSettings.endGroup, QSettings.fullKey, hstack, htrace, joinKey_settingswindow]
  have hs2 : (SettingsWindow.save_settings st ss).trace
      = [.beginG "settingswindow", .access "settingswindow/geometry", .endG] := by
    simp [SettingsWindow.save_settings, QSettings.beginGroup, QSettings.setValue,
      QSettings.endGroup, QSettings.sync, QSettings.fullKey, hstack, htrace,
      joinKey_settingswindow]
  refine ⟨⟨hm, ?_, ?_⟩, ⟨hm2, ?_, ?_⟩, ⟨hs1, ?_, ?_⟩, ⟨hs2, ?_, ?_⟩⟩
  · rw [hm]; rfl
  · simp [MainWindow.load_settings, QSettings.beginGroup, QSettings.value,
      QSettings.endGroup, hstack]
  · rw [hm2]; rfl
  · simp [MainWindow.save_settings, QSettings.beginGroup, QSettings.setValue,
      QSettings.endGroup, QSettings.sync, hstack]
  · rw [hs1]; rfl
  · simp [SettingsWindow.load_settings, QSettings.beginGroup, QSettings.value,
      QSettings.endGroup, hstack]
  · rw [hs2]; rfl
  · simp [SettingsWindow.save_settings, QSettings.beginGroup, QSettings.setValue,
      QSettings.endGroup, QSettings.sync, hstack]

/-- Witness for C8 on the empty store and the concrete windows. -/
theorem settings_group_discipline_witness :
    (storeEmpty.groupStack = [] ∧ storeEmpty.trace = []) ∧
      (((MainWindow.load_settings envNoPacks storeEmpty mainWin0).1.trace
          = [.beginG "mainwindow", .access "mainwindow/geometry", .endG] ∧
        balancedFrom 0 (MainWindow.load_settings envNoPacks storeEmpty mainWin0).1.trace
          = true ∧
        (MainWindow.load_settings envNoPacks storeEmpty mainWin0).1.groupStack = []) ∧
      ((MainWindow.save_settings storeEmpty mainWin0).trace
          = [.beginG "mainwindow", .access "mainwindow/geometry", .endG] ∧
        balancedFrom 0 (MainWindow.save_settings storeEmpty mainWin0).trace = true ∧
        (MainWindow.save_settings storeEmpty mainWin0).groupStack = []) ∧
      ((SettingsWindow.load_settings envNoPacks storeEmpty settingsWin0).1.trace
          = [.beginG "settingswindow", .access "settingswindow/geometry", .endG] ∧
        balancedFrom 0
            (SettingsWindow.load_settings envNoPacks storeEmpty settingsWin0).1.trace
          = true ∧
        (SettingsWindow.load_settings envNoPacks storeEmpty settingsWin0).1.groupStack
          = []) ∧
      ((SettingsWindow.save_settings storeEmpty settingsWin0).trace
          = [.beginG "settingswindow", .access "settingswindow/geometry", .endG] ∧
        balancedFrom 0 (SettingsWindow.save_settings storeEmpty settingsWin0).trace
          = true ∧
        (SettingsWindow.save_settings storeEmpty settingsWin0).groupStack = [])) :=
  ⟨⟨rfl, rfl⟩,
   settings_group_discipline envNoPacks storeEmpty mainWin0 settingsWin0 rfl rfl⟩

end UVR
